import Mathlib

/-!
Verification of the browserchannel HTTP dispatcher
(`src/browserchannel/handler.go`).

The dispatcher is embedded shallowly: each Go handler becomes a pure
function from the handler state, the parsed request and the outcomes of
the external oracles (the random source, the regexp matcher) to a trace
of `Effect`s (header writes, body writes, channel operations, back
channel installation) together with the updated channel map.  The
response status and body are recovered from the trace.

The `Channel`, `BackChannel`, session id and wire codec live in files of
the repository that are not part of `src/`; the definitions for them are
modelled from the spec and are marked `Modelled from the spec:` in their
doc comments.  Everything else is a direct translation of `handler.go`.
-/

/-! ### Small parsing helpers (Go `strconv.Atoi` on arbitrary precision) -/

/-- Decimal digit test on a character. -/
def isDigitCh (c : Char) : Bool := c.isDigit

/-- Value of a list of decimal digits. -/
def digitsVal (l : List Char) : Nat :=
  l.foldl (fun n c => n * 10 + (c.toNat - 48)) 0

/-- A non-empty all-digit string parses to its value; everything else fails. -/
def atoiDigits (l : List Char) : Except Unit Nat :=
  if !l.isEmpty && l.all isDigitCh then Except.ok (digitsVal l) else Except.error ()

/-- Go `strconv.Atoi`: optional sign followed by decimal digits.  The Go
function also fails on 64-bit overflow; the model uses unbounded integers,
which agrees with the source on every input the protocol can produce. -/
def atoi (s : String) : Except Unit Int :=
  match s.data with
  | '+' :: rest => (atoiDigits rest).map (fun n => (n : Int))
  | '-' :: rest => (atoiDigits rest).map (fun n => -(n : Int))
  | l => (atoiDigits l).map (fun n => (n : Int))

/-- `parseAid` from handler.go: empty means no acknowledgement (-1),
otherwise `strconv.Atoi`. -/
def parseAid (s : String) : Except Unit Int :=
  if s.length = 0 then Except.ok (-1) else atoi s

/-- `parseProtoVersion` from handler.go: `strconv.Atoi`, with -1 on error. -/
def parseProtoVersion (s : String) : Int :=
  match atoi s with
  | Except.ok v => v
  | Except.error _ => -1

/-- The browser channel protocol version implemented by the library
(`SupportedProcolVersion` in handler.go, source spelling kept). -/
def SupportedProcolVersion : Int := 8

/-- Default path suffix for channel connections. -/
def DefaultBindPath : String := "bind"

/-- Default path suffix for test connections. -/
def DefaultTestPath : String := "test"

/-! ### Query TYPE parameter -/

/-- Possible values of the query TYPE parameter (handler.go `queryType`). -/
inductive QueryType where
  | queryUnset
  | queryTerminate
  | queryXmlHttp
  | queryHtml
  | queryTest
deriving DecidableEq, Repr

/-- `parseQueryType` from handler.go. -/
def parseQueryType (s : String) : QueryType :=
  if s = "html" then QueryType.queryHtml
  else if s = "xmlhttp" then QueryType.queryXmlHttp
  else if s = "terminate" then QueryType.queryTerminate
  else if s = "test" then QueryType.queryTest
  else QueryType.queryUnset

/-- `queryType.setContentType` from handler.go: the content type written
for a given query type. -/
def contentTypeOf (q : QueryType) : String :=
  if q = QueryType.queryHtml then "text/html" else "text/plain"

/-! ### Session ids -/

/-- Hexadecimal digit test. -/
def isHexDigitCh (c : Char) : Bool :=
  c.isDigit || (decide ('a' ≤ c) && decide (c ≤ 'f')) || (decide ('A' ≤ c) && decide (c ≤ 'F'))

/-- The null session id: the sentinel meaning "no session yet". -/
def nullSessionId : String := ""

/-- Modelled from the spec: `parseSessionId` is not under `src/`.  Per the
spec a SID is 32 hex characters or empty; the empty string parses to the
null sentinel, a well-formed 32-hex-char string parses to itself, and any
other string is a parse error. -/
def parseSessionId (s : String) : Except Unit String :=
  if s = "" then Except.ok nullSessionId
  else if s.length = 32 && s.data.all isHexDigitCh then Except.ok s
  else Except.error ()

/-! ### Cross domain info -/

/-- `crossDomainInfo` from handler.go.  The compiled `hostMatcher` regexp
is an external collaborator; its match outcome enters the model as an
oracle on the request. -/
structure CrossDomainInfo where
  domain : String
  prefixes : List String
deriving DecidableEq, Repr

/-- `getHostPrefix` from handler.go.  `r` is the value drawn from the
random source; Go picks `info.prefixes[rand.Intn(len(info.prefixes))]`,
and `rand.Intn` panics when its argument is 0, which the model renders as
`none`. -/
def getHostPrefix (info : Option CrossDomainInfo) (r : Nat) : Option String :=
  match info with
  | some i =>
    if h : 0 < i.prefixes.length then
      some (i.prefixes.get ⟨r % i.prefixes.length, Nat.mod_lt r h⟩)
    else none
  | none => some ""

/-! ### The channel (spec-modelled: `channel.go` is not under `src/`) -/

/-- Channel states (spec section 3: Init, Ready, Closed). -/
inductive ChannelState where
  | channelInit
  | channelReady
  | channelClosed
deriving DecidableEq, Repr

/-- Errors returned by `receiveMaps` (spec section 7). -/
inductive ReceiveError where
  | staleOffset
  | gapOffset
  | channelClosed
deriving DecidableEq, Repr

/-- Modelled from the spec: the per-session `Channel` state machine of
spec section 3.  The outgoing queue keeps (array id, byte size) pairs;
timers and the inbound application queue are external to the claims. -/
structure Channel where
  sid : String
  cver : String
  state : ChannelState
  lastReceivedOffset : Int
  queue : List (Int × Nat)
  hasBackChannel : Bool
  lastSentArrayId : Int
  corsInfo : Option CrossDomainInfo
deriving DecidableEq, Repr

/-- Modelled from the spec: `newChannel` constructs a session in the Init
state with an empty queue and no back channel. -/
def newChannel (cver sid : String) (corsInfo : Option CrossDomainInfo) : Channel :=
  { sid := sid, cver := cver, state := ChannelState.channelInit,
    lastReceivedOffset := -1, queue := [], hasBackChannel := false,
    lastSentArrayId := 0, corsInfo := corsInfo }

/-- Modelled from the spec: `acknowledgeArrays` removes every queued array
with id at most `aid` (spec section 4.2). -/
def Channel.acknowledgeArrays (c : Channel) (aid : Int) : Channel :=
  { c with queue := c.queue.filter (fun a => !(a.1 ≤ aid : Bool)) }

/-- Offset bookkeeping of `receiveMaps` (spec section 3): a map numbered
at most the last received offset is a duplicate and is discarded, the
successor offset is delivered and advances the counter, and a larger
offset is a gap that fails the whole request. -/
def recvMapsLoop : Int → Int → List (List (String × String)) → Except ReceiveError Int
  | last, _, [] => Except.ok last
  | last, ofs, _ :: rest =>
    if ofs ≤ last then recvMapsLoop last (ofs + 1) rest
    else if ofs = last + 1 then recvMapsLoop (last + 1) (ofs + 1) rest
    else Except.error ReceiveError.gapOffset

/-- Modelled from the spec: `receiveMaps` fails with `channelClosed` on a
Closed channel, validates the offsets of the batch starting at `offset`,
and advances `lastReceivedOffset` on success. -/
def Channel.receiveMaps (c : Channel) (offset : Int) (maps : List (List (String × String))) :
    Except ReceiveError Channel :=
  if c.state = ChannelState.channelClosed then Except.error ReceiveError.channelClosed
  else
    match recvMapsLoop c.lastReceivedOffset offset maps with
    | Except.error e => Except.error e
    | Except.ok last2 => Except.ok { c with lastReceivedOffset := last2 }

/-- Outstanding bytes: the sum of the byte sizes in the queue. -/
def Channel.outstandingBytes (c : Channel) : Nat :=
  (c.queue.map Prod.snd).sum

/-- Modelled from the spec: the JSON serialization of `getState`, the
snapshot `(hasBackChannel, lastSentArrayId, outstandingBytes)` of spec
section 4.3, as produced by `json.Marshal`. -/
def Channel.stateJson (c : Channel) : String :=
  "\x7b\"hasBackChannel\":" ++ (if c.hasBackChannel then "true" else "false") ++
  ",\"lastSentArrayId\":" ++ toString c.lastSentArrayId ++
  ",\"outstandingBytes\":" ++ toString c.outstandingBytes ++ "\x7d"

/-- Modelled from the spec: the effect of `setBackChannel` on the channel
record: state moves from Init to Ready and a back channel is attached. -/
def Channel.setBackChannelAttached (c : Channel) : Channel :=
  { c with
    state := if c.state = ChannelState.channelInit then ChannelState.channelReady else c.state,
    hasBackChannel := true }

/-- Modelled from the spec: `terminate` moves the channel to Closed and
drops the back channel. -/
def Channel.terminate (c : Channel) : Channel :=
  { c with state := ChannelState.channelClosed, hasBackChannel := false }

/-! ### Effects: the observable trace of a handler run -/

/-- One observable action of a handler on the response writer, on a
channel, or on the process (spawning the application handler, arming a
timer).  `writeHeader` is `rw.WriteHeader`, `writeString` covers both
`io.WriteString` and `rw.Write`. -/
inductive Effect where
  | setHeader (name value : String)
  | setHeaders
  | setContentType (value : String)
  | writeHeader (status : Nat)
  | writeString (s : String)
  | flush
  | sleepSeconds (n : Nat)
  | writeHtmlHead
  | writeHtmlDomain (domain : String)
  | writeHtmlRpc (token : String)
  | writeHtmlPadding
  | writeHtmlDone
  | ackArrays (sid : String) (aid : Int)
  | channelReceiveMaps (sid : String)
  | terminateChannel (sid : String)
  | newSession (sid : String) (c : Channel)
  | armChannelTimeout (sid : String)
  | spawnChanHandler (sid : String)
  | installBackChannel (sid : String) (isHtml chunked : Bool) (domain rid : String)
  | backChannelWait (sid : String)
deriving DecidableEq, Repr

/-- The status line of a run: the first `writeHeader`, or 200 when the
handler returns without writing one (Go's implicit status). -/
def responseStatus (l : List Effect) : Nat :=
  (l.filterMap (fun e =>
    match e with
    | Effect.writeHeader s => some s
    | _ => none)).headD 200

/-- The body bytes contributed by one effect. -/
def effectBody : Effect → String
  | Effect.writeString s => s
  | _ => ""

/-- The response body of a run: the concatenation of all body writes. -/
def responseBody (l : List Effect) : String :=
  String.join (l.map effectBody)

/-! ### The channel map -/

/-- The channel map, as an association list with one entry per key
(`channelMap` in handler.go wraps a Go map and a read-write lock; the
lock is the concurrency discipline, invisible to the per-request trace). -/
def ChannelMapM := List (String × Channel)

/-- `channelMap.get`. -/
def cmGet (m : ChannelMapM) (sid : String) : Option Channel :=
  List.lookup sid m

/-- `channelMap.set`: Go map assignment, replacing any previous entry. -/
def cmSet (m : ChannelMapM) (sid : String) (c : Channel) : ChannelMapM :=
  (sid, c) :: List.filter (fun kv => kv.1 != sid) m

/-- `channelMap.del`: removes the entry and reports whether one existed. -/
def cmDel (m : ChannelMapM) (sid : String) : ChannelMapM × Bool :=
  (List.filter (fun kv => kv.1 != sid) m, (List.lookup sid m).isSome)

/-- `removeClosedSession` from handler.go, one `del` per session id read
from the GC channel; the boolean list is the logged outcome of each
deletion. -/
def removeClosedSession (m : ChannelMapM) : List String → ChannelMapM × List Bool
  | [] => (m, [])
  | sid :: rest =>
    let d := cmDel m sid
    let r := removeClosedSession d.1 rest
    (r.1, d.2 :: r.2)

/-! ### Requests and parameter parsing -/

/-- An HTTP request as the dispatcher sees it.  `form` is `req.Form`
after `ParseForm` — the query parameters only, because the body was
already consumed by `parseBody`.  `originMatches` is the outcome of the
external `hostMatcher.MatchString(origin)` call. -/
structure Request where
  method : String
  path : String
  origin : String
  originMatches : Bool
  form : List (String × String)
deriving DecidableEq, Repr

/-- Go `strings.HasSuffix` on the character lists of the strings. -/
def hasSuffix (s suffix : String) : Bool :=
  List.isSuffixOf suffix.data s.data

/-- `req.Form.Get`: first value for the key, or the empty string. -/
def formGet (form : List (String × String)) (k : String) : String :=
  match List.lookup k form with
  | some v => v
  | none => ""

/-- `bindParams` from handler.go. -/
structure BindParams where
  cver : String
  sid : String
  qtype : QueryType
  domain : String
  rid : String
  aid : Int
  chunked : Bool
  values : List (String × String)
  method : String
deriving DecidableEq, Repr

/-- `parseBindParams` from handler.go. -/
def parseBindParams (req : Request) (values : List (String × String)) :
    Except Unit BindParams :=
  let cver := formGet req.form "VER"
  let qtype := parseQueryType (formGet req.form "TYPE")
  let domain := formGet req.form "DOMAIN"
  let rid := formGet req.form "zx"
  let chunked := formGet req.form "CI" == "0"
  match parseSessionId (formGet req.form "SID") with
  | Except.error e => Except.error e
  | Except.ok sid =>
    match parseAid (formGet req.form "AID") with
    | Except.error e => Except.error e
    | Except.ok aid =>
      Except.ok ⟨cver, sid, qtype, domain, rid, aid, chunked, values, req.method⟩

/-- `testParams` from handler.go. -/
structure TestParams where
  ver : Int
  init : Bool
  qtype : QueryType
  domain : String
deriving DecidableEq, Repr

/-- `parseTestParams` from handler.go. -/
def parseTestParams (req : Request) : TestParams :=
  { ver := parseProtoVersion (formGet req.form "VER"),
    init := formGet req.form "MODE" == "init",
    qtype := parseQueryType (formGet req.form "TYPE"),
    domain := formGet req.form "DOMAIN" }

/-! ### The forward-channel body decoder -/

/-- Split a form key of the shape `req<digits>_<name>` into index and
name. -/
def parseReqKey (key : String) : Option (Nat × String) :=
  match key.data with
  | 'r' :: 'e' :: 'q' :: rest =>
    let ds := rest.takeWhile isDigitCh
    let tail := rest.dropWhile isDigitCh
    match ds, tail with
    | [], _ => none
    | _, '_' :: rest2 => some (digitsVal ds, String.mk rest2)
    | _, _ => none
  | _ => none

/-- Modelled from the spec: `parseIncomingMaps` (the wire codec is not
under `src/`).  Spec section 4.1: the body carries `count`, `ofs` and
flattened `req<N>_<key>` entries; the decoder fails if `count` is missing
or not a non-negative integer, if `ofs` is missing or not an integer, if
an index is out of range, or if two entries collide on (index, key). -/
def parseIncomingMaps (values : List (String × String)) :
    Except Unit (Int × List (List (String × String))) :=
  match List.lookup "count" values, List.lookup "ofs" values with
  | some cs, some os =>
    match atoi cs, atoi os with
    | Except.ok cnt, Except.ok ofs =>
      if cnt < 0 then Except.error ()
      else
        let entries := values.filterMap (fun kv =>
          match parseReqKey kv.1 with
          | some ik => some (ik.1, ik.2, kv.2)
          | none => none)
        if entries.any (fun e => (e.1 : Int) ≥ cnt) then Except.error ()
        else if (entries.map (fun e => (e.1, e.2.1))).Nodup then
          Except.ok (ofs, (List.range cnt.toNat).map (fun i =>
            entries.filterMap (fun e =>
              if e.1 = i then some (e.2.1, e.2.2) else none)))
        else Except.error ()
    | _, _ => Except.error ()
  | _, _ => Except.error ()

/-! ### The handler -/

/-- The `Handler` record of handler.go.  The GC channel and the
application's `ChannelHandler` are external; invoking them appears in the
trace as `spawnChanHandler`. -/
structure Handler where
  corsInfo : Option CrossDomainInfo
  channels : ChannelMapM
  bindPath : String
  testPath : String

/-- `NewHandler` from handler.go: empty channel map, default paths. -/
def NewHandler : Handler :=
  { corsInfo := none, channels := [], bindPath := DefaultBindPath,
    testPath := DefaultTestPath }

/-- `SetCrossDomainPrefix` from handler.go.  The origin matcher is
compiled externally from `domain`; it is not part of the stored model. -/
def SetCrossDomainPrefix (h : Handler) (domain : String) (prefixes : List String) :
    Handler :=
  { h with corsInfo := some { domain := domain, prefixes := prefixes } }

/-- `handleTestRequest` from handler.go.  `r` is the random draw used by
`getHostPrefix`; the result is `none` exactly when `getHostPrefix`
panics. -/
def handleTestRequest (corsInfo : Option CrossDomainInfo) (params : TestParams)
    (r : Nat) : Option (List Effect) :=
  if params.ver ≠ SupportedProcolVersion then
    some [Effect.writeHeader 400, Effect.writeString "Unsupported protocol version."]
  else if params.init then
    match getHostPrefix corsInfo r with
    | some p =>
      some [Effect.writeHeader 200, Effect.writeString ("[\"" ++ p ++ "\",\"\"]")]
    | none => none
  else
    some ([Effect.setContentType (contentTypeOf params.qtype), Effect.setHeaders,
           Effect.writeHeader 200] ++
      (if params.qtype = QueryType.queryHtml then
        [Effect.writeHtmlHead, Effect.writeHtmlDomain params.domain,
         Effect.writeHtmlRpc "11111", Effect.writeHtmlPadding]
      else [Effect.writeString "11111"]) ++
      [Effect.flush, Effect.sleepSeconds 2] ++
      (if params.qtype = QueryType.queryHtml then
        [Effect.writeHtmlRpc "2", Effect.writeHtmlDone]
      else [Effect.writeString "2"]))

/-- `handleBindPost` from handler.go: decode the maps, feed them to the
channel, then either turn this response into the first back channel (the
channel is still Init) or answer with the length-prefixed state
snapshot. -/
def handleBindPost (params : BindParams) (channel : Channel) :
    List Effect × Channel :=
  match parseIncomingMaps params.values with
  | Except.error _ => ([Effect.writeHeader 400], channel)
  | Except.ok om =>
    match channel.receiveMaps om.1 om.2 with
    | Except.error _ => ([Effect.writeHeader 500], channel)
    | Except.ok c1 =>
      if c1.state = ChannelState.channelInit then
        ([Effect.channelReceiveMaps c1.sid, Effect.setHeaders,
          Effect.writeHeader 200, Effect.flush,
          Effect.installBackChannel c1.sid false false "" params.rid,
          Effect.backChannelWait c1.sid],
         c1.setBackChannelAttached)
      else
        let b := c1.stateJson
        ([Effect.channelReceiveMaps c1.sid, Effect.setHeaders,
          Effect.writeHeader 200,
          Effect.writeString (toString b.utf8ByteSize ++ "\n"),
          Effect.writeString b],
         c1)

/-- `handleBindGet` from handler.go: terminate, or install a back channel
with `isHtml = (TYPE = html)` and the parsed chunked flag. -/
def handleBindGet (params : BindParams) (channel : Channel) :
    List Effect × Channel :=
  if params.qtype = QueryType.queryTerminate then
    ([Effect.terminateChannel channel.sid], channel.terminate)
  else
    ([Effect.setContentType (contentTypeOf params.qtype), Effect.setHeaders,
      Effect.writeHeader 200, Effect.flush,
      Effect.installBackChannel channel.sid
        (decide (params.qtype = QueryType.queryHtml)) params.chunked
        params.domain params.rid,
      Effect.backChannelWait channel.sid],
     channel.setBackChannelAttached)

/-- Method dispatch at the end of `handleBindRequest`. -/
def bindMethod (params : BindParams) (channel : Channel) :
    List Effect × Channel :=
  if params.method = "POST" then handleBindPost params channel
  else if params.method = "GET" then handleBindGet params channel
  else ([Effect.writeHeader 400], channel)

/-- The acknowledgement step and the method dispatch of
`handleBindRequest`, run on the resolved channel. -/
def bindAfterResolve (params : BindParams) (channel : Channel) :
    List Effect × Channel :=
  if params.aid ≠ -1 then
    let m := bindMethod params (channel.acknowledgeArrays params.aid)
    (Effect.ackArrays channel.sid params.aid :: m.1, m.2)
  else bindMethod params channel

/-- `handleBindRequest` from handler.go.  `fresh` is the session id drawn
from the cryptographic random source by `generateSesionId`. -/
def handleBindRequest (h : Handler) (params : BindParams) (fresh : String) :
    List Effect × ChannelMapM :=
  if params.sid ≠ nullSessionId then
    match cmGet h.channels params.sid with
    | none =>
      ([Effect.setHeaders, Effect.writeHeader 400, Effect.writeString "Unknown SID"],
       h.channels)
    | some channel =>
      let r := bindAfterResolve params channel
      (r.1, cmSet h.channels params.sid r.2)
  else
    let channel := newChannel params.cver fresh h.corsInfo
    let channels1 := cmSet h.channels fresh channel
    let r := bindAfterResolve params channel
    (Effect.newSession fresh channel :: Effect.armChannelTimeout fresh ::
       Effect.spawnChanHandler fresh :: r.1,
     cmSet channels1 fresh r.2)

/-- The CORS preamble of `ServeHTTP`. -/
def corsEffects (origin : String) (corsInfo : Option CrossDomainInfo)
    (originMatches : Bool) : List Effect :=
  if origin.length > 0 && corsInfo.isSome && originMatches then
    [Effect.setHeader "Access-Control-Allow-Origin" origin,
     Effect.setHeader "Access-Control-Allow-Credentials" "true"]
  else []

/-- `ServeHTTP` from handler.go.  `bodyResult` is the outcome of the
external `parseBody` call on the request body; `fresh` and `r` are the
oracles of the sub-handlers.  The result is `none` exactly when a
sub-handler panics. -/
def ServeHTTP (h : Handler) (req : Request)
    (bodyResult : Except Unit (List (String × String)))
    (fresh : String) (r : Nat) : Option (List Effect × ChannelMapM) :=
  let ce := corsEffects req.origin h.corsInfo req.originMatches
  match bodyResult with
  | Except.error _ => some (ce ++ [Effect.writeHeader 400], h.channels)
  | Except.ok values =>
    if hasSuffix req.path h.testPath then
      match handleTestRequest h.corsInfo (parseTestParams req) r with
      | some effs => some (ce ++ effs, h.channels)
      | none => none
    else if hasSuffix req.path h.bindPath then
      match parseBindParams req values with
      | Except.error _ => some (ce ++ [Effect.writeHeader 400], h.channels)
      | Except.ok params =>
        let rb := handleBindRequest h params fresh
        some (ce ++ rb.1, rb.2)
    else some (ce ++ [Effect.writeHeader 404], h.channels)

/-! ### Helper lemmas on the dispatcher -/

/-- A fresh key looked up after `cmSet` yields the stored channel. -/
theorem cmGet_cmSet (m : ChannelMapM) (sid : String) (c : Channel) :
    cmGet (cmSet m sid c) sid = some c := by
  simp [cmGet, cmSet, List.lookup]

/-- Looking up a key removed by filtering fails. -/
theorem lookup_filter_ne (m : List (String × Channel)) (sid : String) :
    List.lookup sid (List.filter (fun kv => kv.1 != sid) m) = none := by
  induction m with
  | nil => rfl
  | cons kv rest ih =>
    by_cases hk : kv.1 = sid
    · simp [List.filter_cons, hk, ih]
    · have hne : (sid == kv.1) = false := by
        simp only [beq_eq_false_iff_ne, ne_eq]
        exact fun h2 => hk h2.symm
      simp [List.filter_cons, hk, List.lookup, hne, ih]

/-- `handleBindRequest` on the null session id: creation effects, then the
acknowledgement and method dispatch on the freshly created channel. -/
theorem hbr_null (h : Handler) (params : BindParams) (fresh : String)
    (hsid : params.sid = nullSessionId) :
    handleBindRequest h params fresh =
      (Effect.newSession fresh (newChannel params.cver fresh h.corsInfo) ::
         Effect.armChannelTimeout fresh :: Effect.spawnChanHandler fresh ::
         (bindAfterResolve params (newChannel params.cver fresh h.corsInfo)).1,
       cmSet (cmSet h.channels fresh (newChannel params.cver fresh h.corsInfo)) fresh
         (bindAfterResolve params (newChannel params.cver fresh h.corsInfo)).2) := by
  unfold handleBindRequest
  rw [if_neg (not_not_intro hsid)]

/-- `handleBindRequest` on a known session id: acknowledgement and method
dispatch on the channel found in the map. -/
theorem hbr_known (h : Handler) (params : BindParams) (fresh : String) (c : Channel)
    (hsid : params.sid ≠ nullSessionId)
    (hget : cmGet h.channels params.sid = some c) :
    handleBindRequest h params fresh =
      ((bindAfterResolve params c).1,
       cmSet h.channels params.sid (bindAfterResolve params c).2) := by
  unfold handleBindRequest
  rw [if_pos hsid, hget]

/-- `handleBindRequest` on an unknown non-null session id: the 400
"Unknown SID" reply, the map untouched. -/
theorem hbr_unknown (h : Handler) (params : BindParams) (fresh : String)
    (hsid : params.sid ≠ nullSessionId)
    (hget : cmGet h.channels params.sid = none) :
    handleBindRequest h params fresh =
      ([Effect.setHeaders, Effect.writeHeader 400, Effect.writeString "Unknown SID"],
       h.channels) := by
  unfold handleBindRequest
  rw [if_pos hsid, hget]

/-- `bindAfterResolve` with an acknowledgement id. -/
theorem bar_ack (params : BindParams) (c : Channel) (haid : params.aid ≠ -1) :
    bindAfterResolve params c =
      (Effect.ackArrays c.sid params.aid ::
         (bindMethod params (c.acknowledgeArrays params.aid)).1,
       (bindMethod params (c.acknowledgeArrays params.aid)).2) := by
  unfold bindAfterResolve
  rw [if_pos haid]

/-- `bindAfterResolve` without an acknowledgement id. -/
theorem bar_noack (params : BindParams) (c : Channel) (haid : params.aid = -1) :
    bindAfterResolve params c = bindMethod params c := by
  unfold bindAfterResolve
  rw [if_neg (not_not_intro haid)]

/-- The default branch of the method dispatch. -/
theorem bindMethod_default (params : BindParams) (c : Channel)
    (hm1 : params.method ≠ "POST") (hm2 : params.method ≠ "GET") :
    bindMethod params c = ([Effect.writeHeader 400], c) := by
  unfold bindMethod
  rw [if_neg hm1, if_neg hm2]

/-- No acknowledgement effect is ever produced by the method dispatch. -/
theorem ack_not_in_bindMethod (params : BindParams) (c : Channel) (s : String) (a : Int) :
    Effect.ackArrays s a ∉ (bindMethod params c).1 := by
  unfold bindMethod handleBindPost handleBindGet
  split
  · split
    · simp
    · split
      · simp
      · split <;> simp
  · split
    · split <;> simp
    · simp

/-! ### Claims -/

/-- C1: a bind request whose SID parameter is set and non-empty but whose
session id is not in the channel map is answered with HTTP status 400 and
a body containing the literal substring "Unknown SID", and no
acknowledgement, map delivery or back-channel installation is performed
on any channel; the channel map is left unchanged. -/
theorem c1_unknown_sid (h : Handler) (params : BindParams) (fresh : String)
    (hsid : params.sid ≠ nullSessionId)
    (hget : cmGet h.channels params.sid = none) :
    responseStatus (handleBindRequest h params fresh).1 = 400 ∧
    (∃ pre post, responseBody (handleBindRequest h params fresh).1 =
      pre ++ "Unknown SID" ++ post) ∧
    (∀ s a, Effect.ackArrays s a ∉ (handleBindRequest h params fresh).1) ∧
    (∀ s, Effect.channelReceiveMaps s ∉ (handleBindRequest h params fresh).1) ∧
    (∀ s ih ck d rid, Effect.installBackChannel s ih ck d rid ∉
      (handleBindRequest h params fresh).1) ∧
    (handleBindRequest h params fresh).2 = h.channels := by
  rw [hbr_unknown h params fresh hsid hget]
  refine ⟨rfl, ⟨"", "", rfl⟩, ?_, ?_, ?_, rfl⟩
  · intro s a
    simp [responseBody, effectBody]
  · intro s
    simp
  · intro s ih ck d rid
    simp

/-- Witness for C1 at a concrete unknown session id. -/
theorem c1_unknown_sid_witness :
    responseStatus (handleBindRequest NewHandler
      ⟨"8", "deadbeefdeadbeefdeadbeefdeadbeef", QueryType.queryUnset, "", "",
       -1, false, [], "POST"⟩ "f1f2").1 = 400 ∧
    (∃ pre post, responseBody (handleBindRequest NewHandler
      ⟨"8", "deadbeefdeadbeefdeadbeefdeadbeef", QueryType.queryUnset, "", "",
       -1, false, [], "POST"⟩ "f1f2").1 = pre ++ "Unknown SID" ++ post) := by
  have t := c1_unknown_sid NewHandler
    ⟨"8", "deadbeefdeadbeefdeadbeefdeadbeef", QueryType.queryUnset, "", "",
     -1, false, [], "POST"⟩ "f1f2" (by decide) rfl
  exact ⟨t.1, t.2.1⟩

/-- C2: a bind request with an absent SID (the null session id) creates a
fresh channel: a new `Channel` in the Init state carrying the fresh
session id is constructed and inserted into the channel map, the session
timer is armed, and the application's ChannelHandler is spawned, all
before the method dispatch (whose effects are exactly the tail of the
trace); after the run the fresh session id is present in the map. -/
theorem c2_new_session (h : Handler) (params : BindParams) (fresh : String)
    (hsid : params.sid = nullSessionId) :
    (newChannel params.cver fresh h.corsInfo).state = ChannelState.channelInit ∧
    (newChannel params.cver fresh h.corsInfo).sid = fresh ∧
    (handleBindRequest h params fresh).1 =
      Effect.newSession fresh (newChannel params.cver fresh h.corsInfo) ::
        Effect.armChannelTimeout fresh :: Effect.spawnChanHandler fresh ::
        (bindAfterResolve params (newChannel params.cver fresh h.corsInfo)).1 ∧
    cmGet (cmSet h.channels fresh (newChannel params.cver fresh h.corsInfo)) fresh =
      some (newChannel params.cver fresh h.corsInfo) ∧
    (handleBindRequest h params fresh).2 =
      cmSet (cmSet h.channels fresh (newChannel params.cver fresh h.corsInfo)) fresh
        (bindAfterResolve params (newChannel params.cver fresh h.corsInfo)).2 ∧
    (∃ c2, cmGet (handleBindRequest h params fresh).2 fresh = some c2) := by
  rw [hbr_null h params fresh hsid]
  refine ⟨rfl, rfl, rfl, cmGet_cmSet _ _ _, rfl, ?_⟩
  exact ⟨_, cmGet_cmSet _ _ _⟩

/-- Witness for C2 at a concrete request with no SID. -/
theorem c2_new_session_witness :
    (newChannel "8" "aabb" none).state = ChannelState.channelInit ∧
    (∃ c2, cmGet (handleBindRequest NewHandler
      ⟨"8", "", QueryType.queryUnset, "", "", -1, false, [], "GET"⟩ "aabb").2
        "aabb" = some c2) := by
  have t := c2_new_session NewHandler
    ⟨"8", "", QueryType.queryUnset, "", "", -1, false, [], "GET"⟩ "aabb" rfl
  exact ⟨t.1, t.2.2.2.2.2⟩

/-- `handleBindPost` when the body decodes and the channel accepts the
maps: the two-way branch on the post-call state. -/
theorem hbp_ok (params : BindParams) (channel : Channel)
    (om : Int × List (List (String × String))) (c1 : Channel)
    (hdec : parseIncomingMaps params.values = Except.ok om)
    (hrecv : channel.receiveMaps om.1 om.2 = Except.ok c1) :
    handleBindPost params channel =
      if c1.state = ChannelState.channelInit then
        ([Effect.channelReceiveMaps c1.sid, Effect.setHeaders,
          Effect.writeHeader 200, Effect.flush,
          Effect.installBackChannel c1.sid false false "" params.rid,
          Effect.backChannelWait c1.sid],
         c1.setBackChannelAttached)
      else
        ([Effect.channelReceiveMaps c1.sid, Effect.setHeaders,
          Effect.writeHeader 200,
          Effect.writeString (toString c1.stateJson.utf8ByteSize ++ "\n"),
          Effect.writeString c1.stateJson],
         c1) := by
  simp only [handleBindPost, hdec, hrecv]

/-- `handleBindPost` when the body fails to decode: 400, channel
untouched. -/
theorem hbp_decode_err (params : BindParams) (channel : Channel)
    (hdec : parseIncomingMaps params.values = Except.error ()) :
    handleBindPost params channel = ([Effect.writeHeader 400], channel) := by
  simp only [handleBindPost, hdec]

/-- `handleBindPost` when `receiveMaps` fails: 500, channel untouched. -/
theorem hbp_recv_err (params : BindParams) (channel : Channel)
    (om : Int × List (List (String × String))) (e : ReceiveError)
    (hdec : parseIncomingMaps params.values = Except.ok om)
    (hrecv : channel.receiveMaps om.1 om.2 = Except.error e) :
    handleBindPost params channel = ([Effect.writeHeader 500], channel) := by
  simp only [handleBindPost, hdec, hrecv]

/-- C3: a forward-channel POST whose maps decode and are accepted by
`receiveMaps`: if the channel is still Init after the call the response
becomes the first back channel (non-chunked, non-HTML, waited on),
otherwise the response is 200 with body the decimal byte length of the
JSON state snapshot, a newline, then the snapshot. -/
theorem c3_bind_post (params : BindParams) (channel : Channel)
    (om : Int × List (List (String × String))) (c1 : Channel)
    (hdec : parseIncomingMaps params.values = Except.ok om)
    (hrecv : channel.receiveMaps om.1 om.2 = Except.ok c1) :
    (c1.state = ChannelState.channelInit →
      handleBindPost params channel =
        ([Effect.channelReceiveMaps c1.sid, Effect.setHeaders,
          Effect.writeHeader 200, Effect.flush,
          Effect.installBackChannel c1.sid false false "" params.rid,
          Effect.backChannelWait c1.sid],
         c1.setBackChannelAttached)) ∧
    (c1.state ≠ ChannelState.channelInit →
      responseStatus (handleBindPost params channel).1 = 200 ∧
      responseBody (handleBindPost params channel).1 =
        toString c1.stateJson.utf8ByteSize ++ "\n" ++ c1.stateJson) := by
  have hstep := hbp_ok params channel om c1 hdec hrecv
  constructor
  · intro hinit
    rw [hstep, if_pos hinit]
  · intro hninit
    rw [hstep, if_neg hninit]
    exact ⟨rfl, rfl⟩

/-- Witness for C3: a first POST on an Init channel installs the back
channel; the same POST on a Ready channel returns the snapshot. -/
theorem c3_bind_post_witness :
    handleBindPost
      ⟨"8", "", QueryType.queryUnset, "", "zz", -1, false,
       [("count", "1"), ("ofs", "0"), ("req0_x", "hello")], "POST"⟩
      ⟨"s1", "8", ChannelState.channelInit, -1, [], false, 0, none⟩ =
      ([Effect.channelReceiveMaps "s1", Effect.setHeaders,
        Effect.writeHeader 200, Effect.flush,
        Effect.installBackChannel "s1" false false "" "zz",
        Effect.backChannelWait "s1"],
       Channel.setBackChannelAttached
         ⟨"s1", "8", ChannelState.channelInit, 0, [], false, 0, none⟩) ∧
    responseStatus (handleBindPost
      ⟨"8", "", QueryType.queryUnset, "", "zz", -1, false,
       [("count", "1"), ("ofs", "0"), ("req0_x", "hello")], "POST"⟩
      ⟨"s2", "8", ChannelState.channelReady, -1, [], false, 0, none⟩).1 = 200 ∧
    responseBody (handleBindPost
      ⟨"8", "", QueryType.queryUnset, "", "zz", -1, false,
       [("count", "1"), ("ofs", "0"), ("req0_x", "hello")], "POST"⟩
      ⟨"s2", "8", ChannelState.channelReady, -1, [], false, 0, none⟩).1 =
      toString (Channel.stateJson
        ⟨"s2", "8", ChannelState.channelReady, 0, [], false, 0, none⟩).utf8ByteSize
        ++ "\n" ++
        Channel.stateJson ⟨"s2", "8", ChannelState.channelReady, 0, [], false, 0, none⟩ := by
  have t0 := c3_bind_post
    ⟨"8", "", QueryType.queryUnset, "", "zz", -1, false,
     [("count", "1"), ("ofs", "0"), ("req0_x", "hello")], "POST"⟩
    ⟨"s1", "8", ChannelState.channelInit, -1, [], false, 0, none⟩
    (0, [[("x", "hello")]])
    ⟨"s1", "8", ChannelState.channelInit, 0, [], false, 0, none⟩ (by rfl) (by rfl)
  have t1 := c3_bind_post
    ⟨"8", "", QueryType.queryUnset, "", "zz", -1, false,
     [("count", "1"), ("ofs", "0"), ("req0_x", "hello")], "POST"⟩
    ⟨"s2", "8", ChannelState.channelReady, -1, [], false, 0, none⟩
    (0, [[("x", "hello")]])
    ⟨"s2", "8", ChannelState.channelReady, 0, [], false, 0, none⟩ (by rfl) (by rfl)
  exact ⟨t0.1 rfl, (t1.2 (by decide)).1, (t1.2 (by decide)).2⟩

/-- The CORS preamble writes no status line, so the response status is
decided by the effects that follow it. -/
theorem responseStatus_cors (o : String) (ci : Option CrossDomainInfo) (mtch : Bool)
    (l : List Effect) :
    responseStatus (corsEffects o ci mtch ++ l) = responseStatus l := by
  unfold corsEffects responseStatus
  split
  · simp [List.filterMap_cons]
  · simp

/-- C4: a body parse failure or a bind-parameter parse failure (malformed
SID, or non-empty non-integer AID) is answered 400 with no channel
operation; a forward-channel map-decode failure is answered 400 with the
channel untouched; an error from `receiveMaps` (gap, stale or closed
channel) is answered 500, with no state snapshot written and no back
channel installed on the response. -/
theorem c4_errors (h : Handler) (req : Request) (values : List (String × String))
    (fresh : String) (r : Nat) :
    (ServeHTTP h req (Except.error ()) fresh r =
        some (corsEffects req.origin h.corsInfo req.originMatches ++
          [Effect.writeHeader 400], h.channels) ∧
      responseStatus (corsEffects req.origin h.corsInfo req.originMatches ++
        [Effect.writeHeader 400]) = 400) ∧
    (hasSuffix req.path h.testPath = false → hasSuffix req.path h.bindPath = true →
      parseBindParams req values = Except.error () →
      ServeHTTP h req (Except.ok values) fresh r =
        some (corsEffects req.origin h.corsInfo req.originMatches ++
          [Effect.writeHeader 400], h.channels)) ∧
    (parseSessionId (formGet req.form "SID") = Except.error () →
      parseBindParams req values = Except.error ()) ∧
    (∀ sid2, parseSessionId (formGet req.form "SID") = Except.ok sid2 →
      parseAid (formGet req.form "AID") = Except.error () →
      parseBindParams req values = Except.error ()) ∧
    (∀ s : String, s.length ≠ 0 → atoi s = Except.error () →
      parseAid s = Except.error ()) ∧
    (∀ (params : BindParams) (c : Channel),
      parseIncomingMaps params.values = Except.error () →
      handleBindPost params c = ([Effect.writeHeader 400], c)) ∧
    (∀ (params : BindParams) (c : Channel)
      (om : Int × List (List (String × String))) (e : ReceiveError),
      parseIncomingMaps params.values = Except.ok om →
      c.receiveMaps om.1 om.2 = Except.error e →
      handleBindPost params c = ([Effect.writeHeader 500], c)) := by
  refine ⟨⟨rfl, ?_⟩, ?_, ?_, ?_, ?_, ?_, ?_⟩
  · rw [responseStatus_cors]
    rfl
  · intro htest hbind hparse
    simp only [ServeHTTP, htest, hbind, hparse]
    simp
  · intro hsid
    simp only [parseBindParams, hsid]
  · intro sid2 hsid haid
    simp only [parseBindParams, hsid, haid]
  · intro s hlen hatoi
    unfold parseAid
    rw [if_neg hlen, hatoi]
  · intro params c hdec
    exact hbp_decode_err params c hdec
  · intro params c om e hdec hrecv
    exact hbp_recv_err params c om e hdec hrecv

/-- Witness for C4: a body parse failure, a malformed SID, a non-integer
AID, a map-decode failure and a gapped offset, each at concrete inputs. -/
theorem c4_errors_witness :
    ServeHTTP NewHandler
      ⟨"POST", "/channel/bind", "", false, []⟩ (Except.error ()) "f" 0 =
      some ([Effect.writeHeader 400], []) ∧
    ServeHTTP NewHandler
      ⟨"POST", "/channel/bind", "", false, [("SID", "xyz")]⟩
      (Except.ok []) "f" 0 =
      some ([Effect.writeHeader 400], []) ∧
    parseBindParams ⟨"POST", "/channel/bind", "", false, [("AID", "abc")]⟩ [] =
      Except.error () ∧
    handleBindPost
      ⟨"8", "", QueryType.queryUnset, "", "", -1, false, [("ofs", "0")], "POST"⟩
      ⟨"s1", "8", ChannelState.channelInit, -1, [], false, 0, none⟩ =
      ([Effect.writeHeader 400],
       ⟨"s1", "8", ChannelState.channelInit, -1, [], false, 0, none⟩) ∧
    handleBindPost
      ⟨"8", "", QueryType.queryUnset, "", "", -1, false,
       [("count", "1"), ("ofs", "5")], "POST"⟩
      ⟨"s1", "8", ChannelState.channelInit, -1, [], false, 0, none⟩ =
      ([Effect.writeHeader 500],
       ⟨"s1", "8", ChannelState.channelInit, -1, [], false, 0, none⟩) := by
  refine ⟨(c4_errors NewHandler ⟨"POST", "/channel/bind", "", false, []⟩ [] "f" 0).1.1,
    ?_, ?_, ?_, ?_⟩
  · exact (c4_errors NewHandler ⟨"POST", "/channel/bind", "", false, [("SID", "xyz")]⟩
      [] "f" 0).2.1 (by rfl) (by rfl) (by rfl)
  · exact (c4_errors NewHandler ⟨"POST", "/channel/bind", "", false, [("AID", "abc")]⟩
      [] "f" 0).2.2.2.1 "" (by rfl) (by rfl)
  · exact (c4_errors NewHandler ⟨"POST", "/channel/bind", "", false, []⟩
      [] "f" 0).2.2.2.2.2.1
      ⟨"8", "", QueryType.queryUnset, "", "", -1, false, [("ofs", "0")], "POST"⟩
      ⟨"s1", "8", ChannelState.channelInit, -1, [], false, 0, none⟩ (by rfl)
  · exact (c4_errors NewHandler ⟨"POST", "/channel/bind", "", false, []⟩
      [] "f" 0).2.2.2.2.2.2
      ⟨"8", "", QueryType.queryUnset, "", "", -1, false,
       [("count", "1"), ("ofs", "5")], "POST"⟩
      ⟨"s1", "8", ChannelState.channelInit, -1, [], false, 0, none⟩
      (5, [[]]) ReceiveError.gapOffset (by rfl) (by rfl)

/-- C5: a bind GET on a resolved channel: TYPE=terminate calls terminate
on the channel and the response completes 200 with an empty body;
otherwise the content type and framing headers are set, the status is
200, and a BackChannel is installed on this response and waited on, whose
chunked flag comes from the CI parameter (true exactly when CI = "0")
and whose isHtml flag is true exactly when TYPE parses to html. -/
theorem c5_bind_get (params : BindParams) (channel : Channel) (req : Request)
    (values : List (String × String)) (p2 : BindParams)
    (hp : parseBindParams req values = Except.ok p2) :
    (params.qtype = QueryType.queryTerminate →
      handleBindGet params channel =
        ([Effect.terminateChannel channel.sid], channel.terminate) ∧
      responseStatus [Effect.terminateChannel channel.sid] = 200 ∧
      responseBody [Effect.terminateChannel channel.sid] = "") ∧
    (params.qtype ≠ QueryType.queryTerminate →
      handleBindGet params channel =
        ([Effect.setContentType (contentTypeOf params.qtype), Effect.setHeaders,
          Effect.writeHeader 200, Effect.flush,
          Effect.installBackChannel channel.sid
            (decide (params.qtype = QueryType.queryHtml)) params.chunked
            params.domain params.rid,
          Effect.backChannelWait channel.sid],
         channel.setBackChannelAttached) ∧
      responseStatus (handleBindGet params channel).1 = 200) ∧
    ((decide (params.qtype = QueryType.queryHtml)) = true ↔
      params.qtype = QueryType.queryHtml) ∧
    (∀ s : String, parseQueryType s = QueryType.queryHtml ↔ s = "html") ∧
    (p2.chunked = (formGet req.form "CI" == "0") ∧
     ((formGet req.form "CI" == "0") = true ↔ formGet req.form "CI" = "0") ∧
     p2.qtype = parseQueryType (formGet req.form "TYPE")) := by
  refine ⟨?_, ?_, by simp, ?_, ?_⟩
  · intro hterm
    unfold handleBindGet
    rw [if_pos hterm]
    exact ⟨rfl, rfl, rfl⟩
  · intro hterm
    have hstep : handleBindGet params channel =
        ([Effect.setContentType (contentTypeOf params.qtype), Effect.setHeaders,
          Effect.writeHeader 200, Effect.flush,
          Effect.installBackChannel channel.sid
            (decide (params.qtype = QueryType.queryHtml)) params.chunked
            params.domain params.rid,
          Effect.backChannelWait channel.sid],
         channel.setBackChannelAttached) := by
      unfold handleBindGet
      rw [if_neg hterm]
    exact ⟨hstep, by rw [hstep]; rfl⟩
  · intro s
    constructor
    · intro hq
      unfold parseQueryType at hq
      by_cases h1 : s = "html"
      · exact h1
      · rw [if_neg h1] at hq
        by_cases h2 : s = "xmlhttp"
        · rw [if_pos h2] at hq
          exact absurd hq (by simp)
        · rw [if_neg h2] at hq
          by_cases h3 : s = "terminate"
          · rw [if_pos h3] at hq
            exact absurd hq (by simp)
          · rw [if_neg h3] at hq
            by_cases h4 : s = "test"
            · rw [if_pos h4] at hq
              exact absurd hq (by simp)
            · rw [if_neg h4] at hq
              exact absurd hq (by simp)
    · intro hs
      rw [hs]
      rfl
  · revert hp
    unfold parseBindParams
    cases hsid : parseSessionId (formGet req.form "SID") with
    | error e => intro hp; exact absurd hp (by simp)
    | ok sid =>
      cases haid : parseAid (formGet req.form "AID") with
      | error e => intro hp; exact absurd hp (by simp)
      | ok aid =>
        intro hp
        cases hp
        exact ⟨rfl, by simp, rfl⟩

/-- Witness for C5: a terminate GET and an html chunked GET at concrete
inputs, and the parse of CI = "0" and TYPE = "html". -/
theorem c5_bind_get_witness :
    handleBindGet
      ⟨"8", "s3", QueryType.queryTerminate, "", "z", -1, false, [], "GET"⟩
      ⟨"s3", "8", ChannelState.channelReady, 0, [], true, 0, none⟩ =
      ([Effect.terminateChannel "s3"],
       Channel.terminate ⟨"s3", "8", ChannelState.channelReady, 0, [], true, 0, none⟩) ∧
    handleBindGet
      ⟨"8", "s3", QueryType.queryHtml, "d.com", "z", -1, true, [], "GET"⟩
      ⟨"s3", "8", ChannelState.channelReady, 0, [], false, 0, none⟩ =
      ([Effect.setContentType "text/html", Effect.setHeaders,
        Effect.writeHeader 200, Effect.flush,
        Effect.installBackChannel "s3" true true "d.com" "z",
        Effect.backChannelWait "s3"],
       Channel.setBackChannelAttached
         ⟨"s3", "8", ChannelState.channelReady, 0, [], false, 0, none⟩) ∧
    (⟨"8", "", QueryType.queryHtml, "", "", -1, true, [], "GET"⟩ : BindParams).chunked =
      (formGet [("CI", "0"), ("TYPE", "html")] "CI" == "0") := by
  have t0 := c5_bind_get
    ⟨"8", "s3", QueryType.queryTerminate, "", "z", -1, false, [], "GET"⟩
    ⟨"s3", "8", ChannelState.channelReady, 0, [], true, 0, none⟩
    ⟨"GET", "/channel/bind", "", false, [("CI", "0"), ("TYPE", "html")]⟩ []
    ⟨"", "", QueryType.queryHtml, "", "", -1, true, [], "GET"⟩ (by rfl)
  have t1 := c5_bind_get
    ⟨"8", "s3", QueryType.queryHtml, "d.com", "z", -1, true, [], "GET"⟩
    ⟨"s3", "8", ChannelState.channelReady, 0, [], false, 0, none⟩
    ⟨"GET", "/channel/bind", "", false, [("CI", "0"), ("TYPE", "html")]⟩ []
    ⟨"", "", QueryType.queryHtml, "", "", -1, true, [], "GET"⟩ (by rfl)
  exact ⟨(t0.1 rfl).1, (t1.2.1 (by decide)).1, rfl⟩

/-- C6: on a bind request that resolves a channel (fresh session or known
SID), an acknowledgement happens exactly when the parsed AID differs from
-1; an absent or empty AID parameter parses to -1; and when an
acknowledgement happens it immediately precedes the method dispatch: the
trace is a prefix with no acknowledgement, the acknowledgement effect,
then exactly the effects of the method dispatch on the acknowledged
channel. -/
theorem c6_ack (h : Handler) (params : BindParams) (fresh : String)
    (hres : params.sid = nullSessionId ∨ ∃ c, cmGet h.channels params.sid = some c) :
    parseAid "" = Except.ok (-1) ∧
    ((∃ s, Effect.ackArrays s params.aid ∈ (handleBindRequest h params fresh).1) ↔
      params.aid ≠ -1) ∧
    (params.aid ≠ -1 → ∃ (c1 : Channel) (pre : List Effect),
      (handleBindRequest h params fresh).1 =
        pre ++ Effect.ackArrays c1.sid params.aid ::
          (bindMethod params (c1.acknowledgeArrays params.aid)).1 ∧
      (∀ s a, Effect.ackArrays s a ∉ pre)) := by
  by_cases hnull : params.sid = nullSessionId
  · rw [hbr_null h params fresh hnull]
    by_cases haid : params.aid = -1
    · rw [bar_noack params (newChannel params.cver fresh h.corsInfo) haid]
      refine ⟨rfl, ?_, fun haid2 => absurd haid haid2⟩
      constructor
      · rintro ⟨s, hs⟩
        simp only [List.mem_cons] at hs
        rcases hs with h1 | h1 | h1 | h1
        · exact absurd h1 (by simp)
        · exact absurd h1 (by simp)
        · exact absurd h1 (by simp)
        · exact absurd h1 (ack_not_in_bindMethod params _ s params.aid)
      · intro haid2
        exact absurd haid haid2
    · rw [bar_ack params (newChannel params.cver fresh h.corsInfo) haid]
      refine ⟨rfl, ?_, ?_⟩
      · constructor
        · intro _
          exact haid
        · intro _
          exact ⟨(newChannel params.cver fresh h.corsInfo).sid, by simp⟩
      · intro _
        refine ⟨newChannel params.cver fresh h.corsInfo,
          [Effect.newSession fresh (newChannel params.cver fresh h.corsInfo),
           Effect.armChannelTimeout fresh, Effect.spawnChanHandler fresh], rfl, ?_⟩
        intro s a
        simp
  · obtain ⟨c, hget⟩ := hres.resolve_left hnull
    rw [hbr_known h params fresh c hnull hget]
    by_cases haid : params.aid = -1
    · rw [bar_noack params c haid]
      refine ⟨rfl, ?_, fun haid2 => absurd haid haid2⟩
      constructor
      · rintro ⟨s, hs⟩
        exact absurd hs (ack_not_in_bindMethod params c s params.aid)
      · intro haid2
        exact absurd haid haid2
    · rw [bar_ack params c haid]
      refine ⟨rfl, ?_, ?_⟩
      · constructor
        · intro _
          exact haid
        · intro _
          exact ⟨c.sid, by simp⟩
      · intro _
        exact ⟨c, [], rfl, by simp⟩

/-- Witness for C6: on a fresh session with AID=7 the acknowledgement is
in the trace; with AID=-1 it is not. -/
theorem c6_ack_witness :
    (∃ s, Effect.ackArrays s 7 ∈ (handleBindRequest NewHandler
      ⟨"8", "", QueryType.queryUnset, "", "", 7, false, [], "GET"⟩ "ab").1) ∧
    ¬ (∃ s, Effect.ackArrays s (-1) ∈ (handleBindRequest NewHandler
      ⟨"8", "", QueryType.queryUnset, "", "", -1, false, [], "GET"⟩ "ab").1) ∧
    parseAid "" = Except.ok (-1) := by
  have t0 := c6_ack NewHandler
    ⟨"8", "", QueryType.queryUnset, "", "", 7, false, [], "GET"⟩ "ab" (Or.inl rfl)
  have t1 := c6_ack NewHandler
    ⟨"8", "", QueryType.queryUnset, "", "", -1, false, [], "GET"⟩ "ab" (Or.inl rfl)
  refine ⟨t0.2.1.mpr (by decide), ?_, t0.1⟩
  intro hmem
  exact absurd (t1.2.1.mp hmem) (by simp)

/-- C7: a test request whose VER does not parse to the supported protocol
version 8 is answered 400 with a plain-text message; with VER = 8 and
MODE=init the answer is 200 with body the JSON two-element string array
whose second element is empty and whose first is either empty (no cross
domain configuration) or an element of the configured prefix list.  The
hypothesis is the interface contract of `SetCrossDomainPrefix` (spec
section 6): a configured prefix list is non-empty. -/
theorem c7_test (cors : Option CrossDomainInfo) (req : Request) (r : Nat)
    (hok : ∀ info, cors = some info → info.prefixes ≠ []) :
    ((parseTestParams req).ver ≠ SupportedProcolVersion →
      handleTestRequest cors (parseTestParams req) r =
        some [Effect.writeHeader 400,
              Effect.writeString "Unsupported protocol version."]) ∧
    ((parseTestParams req).ver = SupportedProcolVersion →
      (parseTestParams req).init = true →
      ∃ (p : String) (effs : List Effect),
        handleTestRequest cors (parseTestParams req) r = some effs ∧
        responseStatus effs = 200 ∧
        responseBody effs = "[\"" ++ p ++ "\",\"\"]" ∧
        (cors = none → p = "") ∧
        (∀ info, cors = some info → p ∈ info.prefixes)) := by
  constructor
  · intro hver
    unfold handleTestRequest
    rw [if_pos hver]
  · intro hver hinit
    unfold handleTestRequest
    rw [if_neg (not_not_intro hver), if_pos hinit]
    cases cors with
    | none =>
      exact ⟨"", [Effect.writeHeader 200, Effect.writeString ("[\"" ++ "" ++ "\",\"\"]")],
        rfl, rfl, rfl, fun _ => rfl, fun info hc => absurd hc (by simp)⟩
    | some info =>
      have hne := hok info rfl
      have hlen : 0 < info.prefixes.length := List.length_pos.mpr hne
      have hgp : getHostPrefix (some info) r =
          some (info.prefixes.get ⟨r % info.prefixes.length, Nat.mod_lt r hlen⟩) := by
        show (if h : 0 < info.prefixes.length then
            some (info.prefixes.get ⟨r % info.prefixes.length, Nat.mod_lt r h⟩)
          else none) = _
        rw [dif_pos hlen]
      rw [hgp]
      refine ⟨info.prefixes.get ⟨r % info.prefixes.length, Nat.mod_lt r hlen⟩,
        _, rfl, rfl, rfl, fun hc => absurd hc (by simp), fun info2 hc => ?_⟩
      cases hc
      exact List.get_mem _ _ _

/-- Witness for C7: an unsupported VER and a MODE=init request with no
cross-domain configuration, at concrete inputs. -/
theorem c7_test_witness :
    handleTestRequest none (parseTestParams
      ⟨"GET", "/channel/test", "", false, [("VER", "7"), ("MODE", "init")]⟩) 0 =
      some [Effect.writeHeader 400,
            Effect.writeString "Unsupported protocol version."] ∧
    (∃ (p : String) (effs : List Effect),
      handleTestRequest none (parseTestParams
        ⟨"GET", "/channel/test", "", false, [("VER", "8"), ("MODE", "init")]⟩) 0 =
        some effs ∧
      responseStatus effs = 200 ∧
      responseBody effs = "[\"" ++ p ++ "\",\"\"]" ∧ p = "") := by
  constructor
  · exact (c7_test none
      ⟨"GET", "/channel/test", "", false, [("VER", "7"), ("MODE", "init")]⟩ 0
      (fun info hc => absurd hc (by simp))).1 (by decide)
  · obtain ⟨p, effs, h1, h2, h3, h4, _⟩ := (c7_test none
      ⟨"GET", "/channel/test", "", false, [("VER", "8"), ("MODE", "init")]⟩ 0
      (fun info hc => absurd hc (by simp))).2 (by rfl) (by rfl)
    exact ⟨p, effs, h1, h2, h3, h4 rfl⟩

/-- C8: `channelMap.del` returns true exactly when an entry for the id
was present, afterwards no entry for the id remains, a second `del` for
the same id returns false, and the GC loop fed the same id twice removes
it exactly once (logged true then false). -/
theorem c8_del (m : ChannelMapM) (sid : String) :
    ((cmDel m sid).2 = true ↔ ∃ c, cmGet m sid = some c) ∧
    cmGet (cmDel m sid).1 sid = none ∧
    (cmDel (cmDel m sid).1 sid).2 = false ∧
    (∀ m2 : ChannelMapM, (∃ c, cmGet m2 sid = some c) →
      (removeClosedSession m2 [sid, sid]).2 = [true, false]) := by
  refine ⟨?_, ?_, ?_, ?_⟩
  · simp [cmDel, cmGet, Option.isSome_iff_exists]
  · exact lookup_filter_ne m sid
  · show (List.lookup sid (List.filter (fun kv => kv.1 != sid) m)).isSome = false
    rw [lookup_filter_ne m sid]
    rfl
  · rintro m2 ⟨c, hc⟩
    have h1 : (List.lookup sid m2).isSome = true := by
      show (cmGet m2 sid).isSome = true
      rw [hc]
      rfl
    show ((cmDel m2 sid).2 :: (cmDel (cmDel m2 sid).1 sid).2 :: []) = [true, false]
    have h2 : (List.lookup sid (List.filter (fun kv => kv.1 != sid) m2)).isSome = false := by
      rw [lookup_filter_ne m2 sid]
      rfl
    simp only [cmDel, h1, h2]

/-- Witness for C8: a concrete map with one entry; deleting its id twice
yields true then false, and the GC loop logs exactly that. -/
theorem c8_del_witness :
    (cmDel [("aa", newChannel "8" "aa" none)] "aa").2 = true ∧
    cmGet (cmDel [("aa", newChannel "8" "aa" none)] "aa").1 "aa" = none ∧
    (removeClosedSession [("aa", newChannel "8" "aa" none)] ["aa", "aa"]).2 =
      [true, false] := by
  have t := c8_del [("aa", newChannel "8" "aa" none)] "aa"
  exact ⟨t.1.mpr ⟨newChannel "8" "aa" none, rfl⟩, t.2.1,
    t.2.2.2 [("aa", newChannel "8" "aa" none)] ⟨newChannel "8" "aa" none, rfl⟩⟩

/-- C9: `getHostPrefix` is total only when a configured prefix list is
non-empty: with no cross-domain info it returns the empty string, with a
non-empty list it returns an element of the list, and with a configured
empty list the random index draw is unguarded (`rand.Intn(0)` panics,
rendered `none`), so a MODE=init test request panics; and
`SetCrossDomainPrefix` stores the list without enforcing non-emptiness. -/
theorem c9_host (info : CrossDomainInfo) (r : Nat) (h0 : Handler) (d : String)
    (ps : List String) :
    getHostPrefix none r = some "" ∧
    (info.prefixes ≠ [] →
      ∃ p, getHostPrefix (some info) r = some p ∧ p ∈ info.prefixes) ∧
    (info.prefixes = [] → getHostPrefix (some info) r = none) ∧
    (info.prefixes = [] →
      handleTestRequest (some info)
        ⟨SupportedProcolVersion, true, QueryType.queryUnset, ""⟩ r = none) ∧
    (SetCrossDomainPrefix h0 d ps).corsInfo = some ⟨d, ps⟩ := by
  have hnone : info.prefixes = [] → getHostPrefix (some info) r = none := by
    intro hnil
    show (if h : 0 < info.prefixes.length then
        some (info.prefixes.get ⟨r % info.prefixes.length, Nat.mod_lt r h⟩)
      else none) = none
    rw [dif_neg (by simp [hnil])]
  refine ⟨rfl, ?_, hnone, ?_, rfl⟩
  · intro hne
    have hlen : 0 < info.prefixes.length := List.length_pos.mpr hne
    refine ⟨info.prefixes.get ⟨r % info.prefixes.length, Nat.mod_lt r hlen⟩, ?_,
      List.get_mem _ _ _⟩
    show (if h : 0 < info.prefixes.length then
        some (info.prefixes.get ⟨r % info.prefixes.length, Nat.mod_lt r h⟩)
      else none) = _
    rw [dif_pos hlen]
  · intro hnil
    unfold handleTestRequest
    rw [if_neg (by simp), if_pos rfl, hnone hnil]

/-- Witness for C9: an empty configured prefix list makes `getHostPrefix`
and the MODE=init test request panic; a two-element list yields one of
its elements. -/
theorem c9_host_witness :
    getHostPrefix (some ⟨"d.com", []⟩) 3 = none ∧
    handleTestRequest (some ⟨"d.com", []⟩)
      ⟨8, true, QueryType.queryUnset, ""⟩ 3 = none ∧
    (∃ p, getHostPrefix (some ⟨"d.com", ["a", "b"]⟩) 3 = some p ∧
      p ∈ (⟨"d.com", ["a", "b"]⟩ : CrossDomainInfo).prefixes) := by
  have t0 := c9_host ⟨"d.com", []⟩ 3 NewHandler "d.com" []
  have t1 := c9_host ⟨"d.com", ["a", "b"]⟩ 3 NewHandler "d.com" []
  exact ⟨t0.2.2.1 rfl, t0.2.2.2.1 rfl, t1.2.1 (by simp)⟩

/-- C10: a bind request whose method is neither POST nor GET is answered
400 with an empty body, yet the side effects preceding the method
dispatch still happen: with no SID a session is created, inserted and its
handler spawned, and with AID different from -1 the arrays are
acknowledged. -/
theorem c10_bad_method (h : Handler) (params : BindParams) (fresh : String)
    (hm1 : params.method ≠ "POST") (hm2 : params.method ≠ "GET")
    (hres : params.sid = nullSessionId ∨ ∃ c, cmGet h.channels params.sid = some c) :
    responseStatus (handleBindRequest h params fresh).1 = 400 ∧
    responseBody (handleBindRequest h params fresh).1 = "" ∧
    (params.sid = nullSessionId →
      (handleBindRequest h params fresh).1 =
        Effect.newSession fresh (newChannel params.cver fresh h.corsInfo) ::
          Effect.armChannelTimeout fresh :: Effect.spawnChanHandler fresh ::
          (bindAfterResolve params (newChannel params.cver fresh h.corsInfo)).1 ∧
      (∃ c2, cmGet (handleBindRequest h params fresh).2 fresh = some c2)) ∧
    (params.aid ≠ -1 →
      ∃ s, Effect.ackArrays s params.aid ∈ (handleBindRequest h params fresh).1) := by
  by_cases hnull : params.sid = nullSessionId
  · rw [hbr_null h params fresh hnull]
    by_cases haid : params.aid = -1
    · rw [bar_noack params (newChannel params.cver fresh h.corsInfo) haid,
        bindMethod_default params _ hm1 hm2]
      refine ⟨rfl, rfl, ?_, fun haid2 => absurd haid haid2⟩
      intro _
      exact ⟨rfl, ⟨_, cmGet_cmSet _ _ _⟩⟩
    · rw [bar_ack params (newChannel params.cver fresh h.corsInfo) haid,
        bindMethod_default params _ hm1 hm2]
      refine ⟨rfl, rfl, ?_, ?_⟩
      · intro _
        exact ⟨rfl, ⟨_, cmGet_cmSet _ _ _⟩⟩
      · intro _
        exact ⟨(newChannel params.cver fresh h.corsInfo).sid, by simp⟩
  · obtain ⟨c, hget⟩ := hres.resolve_left hnull
    rw [hbr_known h params fresh c hnull hget]
    by_cases haid : params.aid = -1
    · rw [bar_noack params c haid, bindMethod_default params _ hm1 hm2]
      exact ⟨rfl, rfl, fun hn => absurd hn hnull, fun haid2 => absurd haid haid2⟩
    · rw [bar_ack params c haid, bindMethod_default params _ hm1 hm2]
      exact ⟨rfl, rfl, fun hn => absurd hn hnull,
        fun _ => ⟨c.sid, by simp⟩⟩

/-- Witness for C10: a DELETE bind request with no SID and AID=7 is
answered 400 with an empty body, creates the session and acknowledges. -/
theorem c10_bad_method_witness :
    responseStatus (handleBindRequest NewHandler
      ⟨"8", "", QueryType.queryUnset, "", "", 7, false, [], "DELETE"⟩ "cd").1 = 400 ∧
    responseBody (handleBindRequest NewHandler
      ⟨"8", "", QueryType.queryUnset, "", "", 7, false, [], "DELETE"⟩ "cd").1 = "" ∧
    (∃ c2, cmGet (handleBindRequest NewHandler
      ⟨"8", "", QueryType.queryUnset, "", "", 7, false, [], "DELETE"⟩ "cd").2 "cd" =
        some c2) ∧
    (∃ s, Effect.ackArrays s 7 ∈ (handleBindRequest NewHandler
      ⟨"8", "", QueryType.queryUnset, "", "", 7, false, [], "DELETE"⟩ "cd").1) := by
  have t := c10_bad_method NewHandler
    ⟨"8", "", QueryType.queryUnset, "", "", 7, false, [], "DELETE"⟩ "cd"
    (by decide) (by decide) (Or.inl rfl)
  exact ⟨t.1, t.2.1, (t.2.2.1 rfl).2, t.2.2.2 (by decide)⟩
